import Mathlib

/-!
Verification of the universal-orm data-access layer: a shallow embedding of
the connection facade (src/index.js), config validator, adapter factory
(src/factory/DatabaseFactory.ts), and the query/transaction logic of the
MongoDB, CockroachDB, ArangoDB and Redis adapters, together with theorems
settling the specification claims about them.
-/

namespace UOrm

/-- Model of a JavaScript value as it flows through the adapters: primitives,
arrays and plain objects (an object is its entry list in insertion order).
Numbers are restricted to integers, which covers every value the embedded
code paths manipulate. -/
inductive JsVal where
  | undefined
  | null
  | bool (b : Bool)
  | num (n : Int)
  | str (s : String)
  | arr (xs : List JsVal)
  | obj (fields : List (String × JsVal))
deriving Repr

/-- JavaScript error classes used in the repository: the adapters construct
plain `Error` and `DatabaseError` (from src/utils/errors); `typeError` models
the runtime TypeError; `transactionError` models the `TransactionError` class
named by the specification's error taxonomy (the embedded code never
constructs it). Each carries its message. -/
inductive JsErr where
  | error (msg : String)
  | typeError (msg : String)
  | databaseError (msg : String)
  | transactionError (msg : String)
deriving Repr, DecidableEq

/-- `error.message` of a JavaScript error. -/
def JsErr.message : JsErr → String
  | .error m => m
  | .typeError m => m
  | .databaseError m => m
  | .transactionError m => m

/-- Whether an error is an instance of the `TransactionError` class. -/
def JsErr.isTransactionError : JsErr → Bool
  | .transactionError _ => true
  | _ => false

/-- `typeof v` for the modelled values (`typeof null` is "object"). -/
def jsTypeof : JsVal → String
  | .undefined => "undefined"
  | .null => "object"
  | .bool _ => "boolean"
  | .num _ => "number"
  | .str _ => "string"
  | .arr _ => "object"
  | .obj _ => "object"

/-- `Array.isArray v`. -/
def isArray : JsVal → Bool
  | .arr _ => true
  | _ => false

/-- JavaScript truthiness: `undefined`, `null`, `false`, `0` and the empty
string are falsy; every object and array is truthy. -/
def truthy : JsVal → Bool
  | .undefined => false
  | .null => false
  | .bool b => b
  | .num n => n != 0
  | .str s => s != ""
  | .arr _ => true
  | .obj _ => true

mutual

/-- String conversion as performed by a template literal substitution
(the backtick-string interpolation in the source). Arrays join their
elements with commas (`null`/`undefined` elements become empty); plain
objects print as `[object Object]`. -/
def jsTemplateStr : JsVal → String
  | .undefined => "undefined"
  | .null => "null"
  | .bool b => if b then "true" else "false"
  | .num n => toString n
  | .str s => s
  | .arr xs => jsTemplateJoin xs
  | .obj _ => "[object Object]"

/-- Comma-join of array elements for `jsTemplateStr`. -/
def jsTemplateJoin : List JsVal → String
  | [] => ""
  | [.undefined] => ""
  | [.null] => ""
  | [v] => jsTemplateStr v
  | .undefined :: rest => "," ++ jsTemplateJoin rest
  | .null :: rest => "," ++ jsTemplateJoin rest
  | v :: rest => jsTemplateStr v ++ "," ++ jsTemplateJoin rest

end

/-- Property access `v[k]` on an object value, yielding `undefined` when the
key is absent; mirrors reading a config field such as `config.database`. -/
def jsGet (fields : List (String × JsVal)) (k : String) : JsVal :=
  match fields.lookup k with
  | some v => v
  | none => .undefined

/-- `Object.entries v`: entry list of an object, indexed entries of an
array; throws a TypeError on `null`/`undefined`; other primitives yield no
entries. -/
def jsEntries : JsVal → Except JsErr (List (String × JsVal))
  | .undefined => .error (.typeError "Cannot convert undefined or null to object")
  | .null => .error (.typeError "Cannot convert undefined or null to object")
  | .obj fields => .ok fields
  | .arr xs => .ok (xs.enum.map fun p => (toString p.1, p.2))
  | _ => .ok []

/-- `s.toLowerCase()` for the ASCII type names the registry and validator
handle: character-wise ASCII lowercasing. -/
def jsToLower (s : String) : String :=
  String.mk (s.toList.map Char.toLower)

/-- Keyed assignment `m[k] = v` (JS object property write / `Map.set`):
replaces the value in place when the key exists (insertion order
preserved), otherwise appends. -/
def setEntry {α : Type} (m : List (String × α)) (k : String) (v : α) :
    List (String × α) :=
  match m with
  | [] => [(k, v)]
  | (k0, v0) :: rest =>
      if k0 = k then (k0, v) :: rest else (k0, v0) :: setEntry rest k v

/-- Property access `config[k]` on an arbitrary value: object lookup, and
`undefined` on every non-object (the validated configs are objects). -/
def jsGetV (v : JsVal) (k : String) : JsVal :=
  match v with
  | .obj fields => jsGet fields k
  | _ => .undefined

/-! ## JSON model

`JSON.stringify` / `JSON.parse` of the JavaScript runtime, restricted to the
integer-numbered values of `JsVal` (fractional and exponent number forms,
which denote floating-point values outside this model, are not produced and
are rejected by the parser). -/

/-- Lower-case hex digit for an index below 16. -/
def hexDigit (n : Nat) : Char :=
  if n < 10 then Char.ofNat (48 + n) else Char.ofNat (87 + n)

/-- The opening-brace character. -/
def lbraceChar : Char := Char.ofNat 123

/-- The closing-brace character. -/
def rbraceChar : Char := Char.ofNat 125

/-- `JSON.stringify` escaping of one string character. -/
def jsonQuoteChar (c : Char) : String :=
  if c = Char.ofNat 34 then "\\\""
  else if c = '\\' then "\\\\"
  else if c = '\n' then "\\n"
  else if c = '\r' then "\\r"
  else if c = '\t' then "\\t"
  else if c = Char.ofNat 8 then "\\b"
  else if c = Char.ofNat 12 then "\\f"
  else if c.toNat < 32 then
    "\\u00" ++ String.singleton (hexDigit (c.toNat / 16)) ++
      String.singleton (hexDigit (c.toNat % 16))
  else String.singleton c

/-- `JSON.stringify` of a string: double-quoted with escapes. -/
def jsonQuote (s : String) : String :=
  "\"" ++ String.join (s.toList.map jsonQuoteChar) ++ "\""

mutual

/-- `JSON.stringify v`; `none` models the call returning `undefined`
(a top-level `undefined` value). -/
def jsonStringify : JsVal → Option String
  | .undefined => none
  | .null => some "null"
  | .bool b => some (if b then "true" else "false")
  | .num n => some (toString n)
  | .str s => some (jsonQuote s)
  | .arr xs => some ("[" ++ jsonStringifyArr xs ++ "]")
  | .obj fs => some (String.singleton lbraceChar ++ jsonStringifyObj fs ++
      String.singleton rbraceChar)

/-- Array elements joined with commas; an `undefined` element prints as
`null`, as `JSON.stringify` does. -/
def jsonStringifyArr : List JsVal → String
  | [] => ""
  | [x] => (jsonStringify x).getD "null"
  | x :: y :: rest =>
      (jsonStringify x).getD "null" ++ "," ++ jsonStringifyArr (y :: rest)

/-- Object fields joined with commas; a field whose value stringifies to
`undefined` is omitted, as `JSON.stringify` does. -/
def jsonStringifyObj : List (String × JsVal) → String
  | [] => ""
  | (k, v) :: rest =>
      match jsonStringify v with
      | none => jsonStringifyObj rest
      | some sv =>
          let restS := jsonStringifyObj rest
          jsonQuote k ++ ":" ++ sv ++ (if restS = "" then "" else "," ++ restS)

end

/-- JSON whitespace. -/
def isJsonWs (c : Char) : Bool :=
  c = ' ' || c = '\t' || c = '\n' || c = '\r'

/-- Drop leading JSON whitespace. -/
def skipWs : List Char → List Char
  | [] => []
  | c :: rest => if isJsonWs c then skipWs rest else c :: rest

/-- Value of a hex digit character, if it is one. -/
def hexVal (c : Char) : Option Nat :=
  if c.isDigit then some (c.toNat - 48)
  else if 'a' ≤ c && c ≤ 'f' then some (c.toNat - 87)
  else if 'A' ≤ c && c ≤ 'F' then some (c.toNat - 55)
  else none

/-- Body of a JSON string literal after the opening quote: accumulates
characters until the closing quote, handling the JSON escape sequences and
rejecting raw control characters. -/
def parseStrAux (acc : List Char) : List Char → Option (String × List Char)
  | [] => none
  | c :: rest =>
      if c = Char.ofNat 34 then some (String.mk acc.reverse, rest)
      else if c = '\\' then
        match rest with
        | [] => none
        | e :: rest2 =>
            if e = Char.ofNat 34 then parseStrAux (Char.ofNat 34 :: acc) rest2
            else if e = '\\' then parseStrAux ('\\' :: acc) rest2
            else if e = '/' then parseStrAux ('/' :: acc) rest2
            else if e = 'b' then parseStrAux (Char.ofNat 8 :: acc) rest2
            else if e = 'f' then parseStrAux (Char.ofNat 12 :: acc) rest2
            else if e = 'n' then parseStrAux ('\n' :: acc) rest2
            else if e = 'r' then parseStrAux ('\r' :: acc) rest2
            else if e = 't' then parseStrAux ('\t' :: acc) rest2
            else if e = 'u' then
              match rest2 with
              | h1 :: h2 :: h3 :: h4 :: rest3 =>
                  match hexVal h1, hexVal h2, hexVal h3, hexVal h4 with
                  | some a, some b, some c3, some d =>
                      parseStrAux
                        (Char.ofNat (a * 4096 + b * 256 + c3 * 16 + d) :: acc)
                        rest3
                  | _, _, _, _ => none
              | _ => none
            else none
      else if c.toNat < 32 then none
      else parseStrAux (c :: acc) rest

/-- Numeric value of a digit list. -/
def digitsVal (ds : List Char) : Nat :=
  ds.foldl (fun acc c => acc * 10 + (c.toNat - 48)) 0

/-- A JSON number at the head of the input: optional minus, then an integer
part with no leading zero. A fractional or exponent continuation denotes a
floating-point value outside this model and is rejected. -/
def parseNumber (cs : List Char) : Option (JsVal × List Char) :=
  let (neg, cs1) :=
    match cs with
    | '-' :: rest => (true, rest)
    | _ => (false, cs)
  let ds := cs1.takeWhile Char.isDigit
  let rest := cs1.dropWhile Char.isDigit
  if ds = [] then none
  else if ds.length > 1 && ds.headD '0' = '0' then none
  else
    match rest with
    | c :: _ =>
        if c = '.' || c = 'e' || c = 'E' then none
        else some (.num (if neg then -(Int.ofNat (digitsVal ds)) else Int.ofNat (digitsVal ds)), rest)
    | [] => some (.num (if neg then -(Int.ofNat (digitsVal ds)) else Int.ofNat (digitsVal ds)), [])

mutual

/-- A JSON value at the head of the input (after whitespace), fuel-bounded. -/
def parsePV : Nat → List Char → Option (JsVal × List Char)
  | 0, _ => none
  | Nat.succ fuel, cs =>
      let cs := skipWs cs
      match cs with
      | [] => none
      | c :: rest =>
          if c = Char.ofNat 34 then
            match parseStrAux [] rest with
            | some (s, rest2) => some (.str s, rest2)
            | none => none
          else if c = '[' then
            let rest1 := skipWs rest
            match rest1 with
            | ']' :: rest2 => some (.arr [], rest2)
            | _ =>
                match parseArrItems fuel [] rest with
                | some (xs, rest2) => some (.arr xs, rest2)
                | none => none
          else if c = lbraceChar then
            let rest1 := skipWs rest
            match rest1 with
            | d :: rest2 =>
                if d = rbraceChar then some (.obj [], rest2)
                else
                  match parseObjItems fuel [] rest with
                  | some (fs, rest2b) => some (.obj fs, rest2b)
                  | none => none
            | [] => none
          else if c = '-' || c.isDigit then parseNumber cs
          else if ['n', 'u', 'l', 'l'].isPrefixOf cs then
            some (.null, cs.drop 4)
          else if ['t', 'r', 'u', 'e'].isPrefixOf cs then
            some (.bool true, cs.drop 4)
          else if ['f', 'a', 'l', 's', 'e'].isPrefixOf cs then
            some (.bool false, cs.drop 5)
          else none

/-- Comma-separated array items up to the closing bracket. -/
def parseArrItems : Nat → List JsVal → List Char →
    Option (List JsVal × List Char)
  | 0, _, _ => none
  | Nat.succ fuel, acc, cs =>
      match parsePV fuel cs with
      | none => none
      | some (v, rest) =>
          match skipWs rest with
          | ',' :: rest2 => parseArrItems fuel (v :: acc) rest2
          | ']' :: rest2 => some ((v :: acc).reverse, rest2)
          | _ => none

/-- Comma-separated `"key": value` object members up to the closing brace. -/
def parseObjItems : Nat → List (String × JsVal) → List Char →
    Option (List (String × JsVal) × List Char)
  | 0, _, _ => none
  | Nat.succ fuel, acc, cs =>
      match skipWs cs with
      | c :: rest =>
          if c = Char.ofNat 34 then
            match parseStrAux [] rest with
            | some (k, rest2) =>
                match skipWs rest2 with
                | ':' :: rest3 =>
                    match parsePV fuel rest3 with
                    | some (v, rest4) =>
                        match skipWs rest4 with
                        | ',' :: rest5 => parseObjItems fuel ((k, v) :: acc) rest5
                        | d :: rest5 =>
                            if d = rbraceChar then
                              some (((k, v) :: acc).reverse, rest5)
                            else none
                        | [] => none
                    | none => none
                | _ => none
            | none => none
          else none
      | [] => none

end

/-- `JSON.parse s`: `none` models the call throwing a `SyntaxError`
(including on trailing garbage), `some v` a successful parse. -/
def jsonParse (s : String) : Option JsVal :=
  match parsePV (s.length + 1) s.toList with
  | some (v, rest) => if skipWs rest = [] then some v else none
  | none => none

/-! ## ConfigValidator (src/utils/validators, compiled form in the repo) -/

/-- The per-backend required-field table of `ConfigValidator.validate`. -/
def requiredFields : List (String × List String) :=
  [("postgres", ["host", "port", "database", "user", "password"]),
   ("mongodb", ["uri", "database"]),
   ("redis", ["host", "port"]),
   ("cassandra", ["contactPoints", "localDataCenter", "keyspace"]),
   ("dynamodb", ["region"]),
   ("elasticsearch", ["node"]),
   ("neo4j", ["uri", "user", "password"]),
   ("influxdb", ["url", "token", "org", "bucket"]),
   ("arango", ["url", "database", "username", "password"]),
   ("orientdb", ["host", "port", "username", "password", "database"]),
   ("timescale", ["host", "port", "database", "user", "password"]),
   ("cockroachdb", ["host", "port", "database", "user", "password"])]

/-- First field of `fields` whose value in `config` is falsy (the loop in
`ConfigValidator.validate` throws at the first such field). -/
def firstMissingField (config : JsVal) (fields : List String) : Option String :=
  fields.find? fun f => ! truthy (jsGetV config f)

/-- `ConfigValidator.validate(type, config)`. The type argument is a string
in this model, so the `typeof type !== 'string'` half of the first guard is
vacuous; `!type` is emptiness. It throws at the FIRST missing required
field it encounters. -/
def validate (type : String) (config : JsVal) : Except JsErr Unit :=
  if type = "" then
    .error (.error "Database type must be a non-empty string")
  else if ! truthy config || jsTypeof config != "object" then
    .error (.error "Configuration must be an object")
  else
    match requiredFields.lookup (jsToLower type) with
    | none => .ok ()
    | some fields =>
        match firstMissingField config fields with
        | some f => .error (.error ("Missing required field: " ++ f))
        | none => .ok ()

/-! ## DatabaseFactory (src/factory/DatabaseFactory.ts)

Adapter constructors are identified by their class name; `new C(config)`
yields an `Instance` carrying the constructor name, the config, and an
allocation counter supplied by the caller that models JavaScript object
identity (two distinct `new` evaluations never yield the same object). -/

/-- A constructed adapter instance. -/
structure Instance where
  id : Nat
  ctor : String
  config : JsVal
deriving Repr

/-- The registry the factory constructor installs. -/
def defaultAdapters : List (String × String) :=
  [("arango", "ArangoAdapter"),
   ("cassandra", "CassandraAdapter"),
   ("cockroachdb", "CockroachDBAdapter"),
   ("dynamodb", "DynamoDBAdapter"),
   ("elasticsearch", "ElasticsearchAdapter"),
   ("influxdb", "InfluxDBAdapter"),
   ("mongodb", "MongoAdapter"),
   ("neo4j", "Neo4jAdapter"),
   ("orientdb", "OrientDBAdapter"),
   ("postgres", "PostgresAdapter"),
   ("redis", "RedisAdapter"),
   ("timescale", "TimescaleAdapter")]

/-- `DatabaseFactory.createDatabase(type, config)`: looks the constructor up
under the lowercased type and constructs, or throws
`Unsupported database type`. `freshId` is the allocation counter for the
constructed object's identity. -/
def createDatabase (adapters : List (String × String)) (type : String)
    (config : JsVal) (freshId : Nat) : Except JsErr Instance :=
  match adapters.lookup (jsToLower type) with
  | none => .error (.error ("Unsupported database type: " ++ type))
  | some c => .ok ⟨freshId, c, config⟩

/-- `DatabaseFactory.addAdapter(type, AdapterClass)`: rejects an empty type
name, then writes the constructor under the lowercased type, silently
replacing any previous registration. Constructors are class values in this
model, so the `typeof AdapterClass !== 'function'` guard is vacuous. -/
def addAdapter (adapters : List (String × String)) (type : String)
    (ctor : String) : Except JsErr (List (String × String)) :=
  if type = "" then
    .error (.error "Database type must be a non-empty string")
  else
    .ok (setEntry adapters (jsToLower type) ctor)

/-! ## MongoAdapter query conversion (src/adapters/MongoAdapter.js) -/

/-- The `operatorMap` that `MongoAdapter._convertQuery` passes to
`_processQueryOperators`. -/
def mongoOperatorMap : List (String × String) :=
  [("$eq", "$eq"), ("$ne", "$ne"), ("$gt", "$gt"), ("$gte", "$gte"),
   ("$lt", "$lt"), ("$lte", "$lte"), ("$in", "$in"), ("$nin", "$nin"),
   ("$regex", "$regex"), ("$exists", "$exists")]

/-- `MongoAdapter._processQueryOperators(query, operatorMap)`: for each
field whose value is a non-array object it keeps exactly the operator
entries found in `operatorMap` (mapped through it); when none of the
entries are recognized the original value is passed through unchanged.
Other values pass through as-is. -/
def processQueryOperators (query : List (String × JsVal))
    (operatorMap : List (String × String)) :
    Except JsErr (List (String × JsVal)) :=
  match query with
  | [] => .ok []
  | (key, value) :: rest =>
      let entry : Except JsErr JsVal :=
        if jsTypeof value == "object" && ! isArray value then
          match jsEntries value with
          | .error e => .error e
          | .ok es =>
              let conds := es.filterMap fun p =>
                match operatorMap.lookup p.1 with
                | some mapped => some (mapped, p.2)
                | none => none
              .ok (if conds.length > 0 then .obj conds else value)
        else .ok value
      match entry with
      | .error e => .error e
      | .ok v2 =>
          match processQueryOperators rest operatorMap with
          | .error e => .error e
          | .ok restP => .ok ((key, v2) :: restP)

/-! ## CockroachDBAdapter query building (the CockroachDBAdapter class) -/

/-- `value === null`. -/
def isNull : JsVal → Bool
  | .null => true
  | _ => false

/-- `CockroachDBAdapter._buildOperatorCondition(key, operator, value,
paramCount)`: emits the condition text with a `$n` placeholder and passes
the operand through as the binding; an unrecognized operator throws
`Unknown operator`. -/
def buildOperatorCondition (key operator : String) (value : JsVal)
    (paramCount : Nat) : Except JsErr (String × JsVal) :=
  let p := "$" ++ toString paramCount
  match operator with
  | "$eq" => .ok (key ++ " = " ++ p, value)
  | "$ne" => .ok (key ++ " != " ++ p, value)
  | "$gt" => .ok (key ++ " > " ++ p, value)
  | "$gte" => .ok (key ++ " >= " ++ p, value)
  | "$lt" => .ok (key ++ " < " ++ p, value)
  | "$lte" => .ok (key ++ " <= " ++ p, value)
  | "$in" => .ok (key ++ " = ANY(" ++ p ++ ")", value)
  | "$nin" => .ok (key ++ " != ALL(" ++ p ++ ")", value)
  | "$like" => .ok (key ++ " LIKE " ++ p, value)
  | "$ilike" => .ok (key ++ " ILIKE " ++ p, value)
  | "$contains" => .ok (key ++ " @> " ++ p, value)
  | "$contained" => .ok (key ++ " <@ " ++ p, value)
  | "$overlap" => .ok (key ++ " && " ++ p, value)
  | "$any" => .ok (p ++ " = ANY(" ++ key ++ ")", value)
  | "$all" => .ok (p ++ " = ALL(" ++ key ++ ")", value)
  | _ => .error (.error ("Unknown operator: " ++ operator))

/-- Inner loop of `_buildWhereClause` over the operator entries of one
field: one condition and one pushed binding per operator, incrementing the
placeholder counter. -/
def buildOpsConditions (key : String) (es : List (String × JsVal))
    (paramCount : Nat) : Except JsErr (List String × List JsVal × Nat) :=
  match es with
  | [] => .ok ([], [], paramCount)
  | (op, operand) :: rest =>
      match buildOperatorCondition key op operand paramCount with
      | .error e => .error e
      | .ok (cond, v) =>
          match buildOpsConditions key rest (paramCount + 1) with
          | .error e => .error e
          | .ok (cs, vs, pc) => .ok (cond :: cs, v :: vs, pc)

/-- Outer loop of `_buildWhereClause` over the query fields: non-null
object values go through the operator loop, all other values emit
`key = $n` with the value pushed as a binding. -/
def buildWhereAux (query : List (String × JsVal)) (paramCount : Nat) :
    Except JsErr (List String × List JsVal) :=
  match query with
  | [] => .ok ([], [])
  | (key, value) :: rest =>
      if jsTypeof value == "object" && ! isNull value then
        match jsEntries value with
        | .error e => .error e
        | .ok es =>
            match buildOpsConditions key es paramCount with
            | .error e => .error e
            | .ok (cs, vs, pc) =>
                match buildWhereAux rest pc with
                | .error e => .error e
                | .ok (cs2, vs2) => .ok (cs ++ cs2, vs ++ vs2)
      else
        match buildWhereAux rest (paramCount + 1) with
        | .error e => .error e
        | .ok (cs2, vs2) =>
            .ok ((key ++ " = $" ++ toString paramCount) :: cs2, value :: vs2)

/-- `CockroachDBAdapter._buildWhereClause(query)`: conditions joined with
`AND` (empty string for an empty query) plus the binding list. -/
def buildWhereClause (query : List (String × JsVal)) :
    Except JsErr (String × List JsVal) :=
  match buildWhereAux query 1 with
  | .error e => .error e
  | .ok (cs, vs) =>
      .ok (if cs.length > 0 then String.intercalate " AND " cs else "", vs)

/-- `order === -1`. -/
def isMinusOne : JsVal → Bool
  | .num n => n == -1
  | _ => false

/-- `CockroachDBAdapter._buildSelectQuery(tableName, query, select,
orderBy, limit, offset, forUpdate)`: the `text`/`values` pair it returns.
`select`, the table name, the `ORDER BY` columns and the `limit`/`offset`
option values are interpolated straight into the text by the template
literal; only the WHERE operands travel in `values`. -/
def buildSelectQuery (tableName : String) (query : List (String × JsVal))
    (sel : String) (orderBy : JsVal) (limit offset : JsVal)
    (forUpdate : JsVal) : Except JsErr (String × List JsVal) :=
  match buildWhereClause query with
  | .error e => .error e
  | .ok (conditions, values) =>
      let base := "\n            SELECT " ++ sel ++
        "\n            FROM " ++ tableName ++
        "\n            " ++
        (if conditions != "" then "WHERE " ++ conditions else "") ++
        "\n        "
      match (if truthy orderBy then jsEntries orderBy else .ok []) with
      | .error e => .error e
      | .ok obEntries =>
          let t1 :=
            if truthy orderBy then
              base ++ " ORDER BY " ++ String.intercalate ", "
                (obEntries.map fun p =>
                  p.1 ++ " " ++ (if isMinusOne p.2 then "DESC" else "ASC"))
            else base
          let t2 := if truthy limit then t1 ++ " LIMIT " ++ jsTemplateStr limit else t1
          let t3 := if truthy offset then t2 ++ " OFFSET " ++ jsTemplateStr offset else t2
          let t4 := if truthy forUpdate then t3 ++ " FOR UPDATE" else t3
          .ok (t4, values)

/-- `CockroachDBAdapter._formatDefaultValue(value, type)`: builds the DDL
default fragment by interpolating the raw default value into the text
(single-quoted for strings and dates, `JSON.stringify`-ed for json,
element-wise quoted for arrays, untouched otherwise). Function-valued
defaults do not occur among the modelled values. -/
def formatDefaultValue (value : JsVal) (type : String) :
    Except JsErr JsVal :=
  let q := String.singleton (Char.ofNat 39)
  match type with
  | "string" => .ok (.str (q ++ jsTemplateStr value ++ q))
  | "text" => .ok (.str (q ++ jsTemplateStr value ++ q))
  | "json" =>
      .ok (.str (q ++ ((jsonStringify value).getD "undefined") ++ q ++ "::jsonb"))
  | "array" =>
      match value with
      | .arr xs =>
          .ok (.str ("ARRAY[" ++
            String.intercalate ", " (xs.map fun v => q ++ jsTemplateStr v ++ q)
            ++ "]"))
      | _ => .error (.typeError "value.map is not a function")
  | "date" =>
      match value with
      | .str "now" => .ok (.str "CURRENT_TIMESTAMP")
      | _ => .ok (.str (q ++ jsTemplateStr value ++ q))
  | _ => .ok value

/-! ## ArangoAdapter filter building (the ArangoAdapter class)

The `aql` tagged template of the driver turns every interpolated value into
a bind parameter (never splicing it into the AQL text); the fragment is
modelled as its text with `@bind` placeholders plus the list of bound
values. Field names (`doc.${key}`) are spliced into the text. -/

/-- `ArangoAdapter._buildOperatorExpression(key, operator, value)`: one AQL
condition per operator; an unrecognized operator throws `Unknown
operator`. -/
def buildOperatorExpression (key operator : String) (value : JsVal) :
    Except JsErr (String × List JsVal) :=
  match operator with
  | "$eq" => .ok ("doc." ++ key ++ " == @bind", [value])
  | "$ne" => .ok ("doc." ++ key ++ " != @bind", [value])
  | "$gt" => .ok ("doc." ++ key ++ " > @bind", [value])
  | "$gte" => .ok ("doc." ++ key ++ " >= @bind", [value])
  | "$lt" => .ok ("doc." ++ key ++ " < @bind", [value])
  | "$lte" => .ok ("doc." ++ key ++ " <= @bind", [value])
  | "$in" => .ok ("doc." ++ key ++ " IN @bind", [value])
  | "$nin" => .ok ("doc." ++ key ++ " NOT IN @bind", [value])
  | "$exists" =>
      .ok (if truthy value then ("HAS(doc, @bind)", [.str key])
           else ("!HAS(doc, @bind)", [.str key]))
  | "$regex" => .ok ("REGEX_TEST(doc." ++ key ++ ", @bind, true)", [value])
  | _ => .error (.error ("Unknown operator: " ++ operator))

/-! ## UniversalORM connection facade (src/index.js) -/

/-- The facade's state: the connection cache, the factory registry and the
allocation counter for object identity. -/
structure OrmState where
  connections : List (String × Instance)
  adapters : List (String × String)
  nextId : Nat
deriving Repr

/-- A freshly constructed `UniversalORM`. -/
def OrmState.init : OrmState := ⟨[], defaultAdapters, 0⟩

/-- The cache key computed by `connect`:
the template literal of type and `config.database`. -/
def connectionKey (type : String) (config : JsVal) : String :=
  type ++ "-" ++ jsTemplateStr (jsGetV config "database")

/-- `UniversalORM.connect(type, config)`: validates, computes the cache key,
returns the cached instance when present, otherwise constructs through the
factory and registers the new instance; any error thrown inside is
re-wrapped as `DatabaseError("Connection failed: " + message)`. -/
def connect (st : OrmState) (type : String) (config : JsVal) :
    Except JsErr (Instance × OrmState) :=
  let body : Except JsErr (Instance × OrmState) := do
    let _ ← validate type config
    let key := connectionKey type config
    match st.connections.lookup key with
    | some inst => .ok (inst, st)
    | none => do
        let inst ← createDatabase st.adapters type config st.nextId
        .ok (inst, { st with
                      connections := setEntry st.connections key inst,
                      nextId := st.nextId + 1 })
  match body with
  | .ok r => .ok r
  | .error e => .error (.databaseError ("Connection failed: " ++ e.message))

/-- `Promise.all` over already-determined outcomes: the fulfillment list
when every promise fulfills, otherwise the rejection of the first rejecting
promise (settlement order is list order in this deterministic model); the
remaining rejections are not observed. -/
def promiseAll (rs : List (Except JsErr Unit)) : Except JsErr (List Unit) :=
  match rs with
  | [] => .ok []
  | r :: rest =>
      match r with
      | .error e => .error e
      | .ok u =>
          match promiseAll rest with
          | .error e => .error e
          | .ok us => .ok (u :: us)

/-- `UniversalORM.closeAll()`: starts `close()` on every cached connection,
awaits them with `Promise.all`, and clears the cache afterwards. The close
outcome of each instance is supplied by `closeResult` (it is determined by
the external native driver). Returns the promise outcome together with the
facade state afterwards: on a rejection the `connections.clear()` line is
never reached. -/
def closeAll (st : OrmState) (closeResult : Instance → Except JsErr Unit) :
    Except JsErr Unit × OrmState :=
  match promiseAll (st.connections.map fun p => closeResult p.2) with
  | .ok _ => (.ok (), { st with connections := [] })
  | .error e => (.error e, st)

/-! ## Transactions

Each adapter's `transaction(callback)` is modelled as a function of the
callback's outcome and of the outcomes of the driver calls it issues
(commit/abort/rollback can themselves reject; those outcomes are inputs).
The result is the promise outcome paired with the trace of driver calls
issued, in order. -/

/-- Driver calls a transaction can issue. -/
inductive TxEvent where
  | startTransaction
  | commitTransaction
  | abortTransaction
  | endSession
  | queryCmd (sql : String)
  | release
  | multi
  | exec
  | discard
deriving Repr, DecidableEq

/-- Whether a promise outcome is a rejection with a `TransactionError`. -/
def resultIsTransactionError (r : Except JsErr JsVal) : Bool :=
  match r with
  | .error e => e.isTransactionError
  | .ok _ => false

/-- `MongoAdapter.transaction(callback)`: `startTransaction`, run the
callback, `commitTransaction` and return on success; in the catch block
`abortTransaction` then throw `DatabaseError("Transaction failed: " +
message)` (a rejection of `abortTransaction` itself propagates instead);
`endSession()` runs in the finally block on every path. -/
def mongoTransaction (cb : Except JsErr JsVal)
    (commitR abortR : Except JsErr Unit) :
    Except JsErr JsVal × List TxEvent :=
  let catchRun : JsErr → Except JsErr JsVal × List TxEvent := fun e =>
    match abortR with
    | .ok _ =>
        (.error (.databaseError ("Transaction failed: " ++ e.message)),
         [.abortTransaction])
    | .error ae => (.error ae, [.abortTransaction])
  let tryRun : Except JsErr JsVal × List TxEvent :=
    match cb with
    | .error e =>
        let r := catchRun e
        (r.1, .startTransaction :: r.2)
    | .ok v =>
        match commitR with
        | .ok _ => (.ok v, [.startTransaction, .commitTransaction])
        | .error ce =>
            let r := catchRun ce
            (r.1, .startTransaction :: .commitTransaction :: r.2)
  (tryRun.1, tryRun.2 ++ [.endSession])

/-- `CockroachDBAdapter.transaction(callback, options)`: `BEGIN` (and the
priority statement when requested), run the callback, `COMMIT` and return;
in the catch block `ROLLBACK` then throw `DatabaseError("Transaction
failed: " + message)` (a rejection of the `ROLLBACK` query propagates
instead); `client.release()` runs in the finally block on every path. -/
def cockroachTransaction (priorityHigh : Bool) (cb : Except JsErr JsVal)
    (beginR priorityR commitR rollbackR : Except JsErr Unit) :
    Except JsErr JsVal × List TxEvent :=
  let catchRun : JsErr → Except JsErr JsVal × List TxEvent := fun e =>
    match rollbackR with
    | .ok _ =>
        (.error (.databaseError ("Transaction failed: " ++ e.message)),
         [.queryCmd "ROLLBACK"])
    | .error re => (.error re, [.queryCmd "ROLLBACK"])
  let tryRun : Except JsErr JsVal × List TxEvent :=
    match beginR with
    | .error e =>
        let r := catchRun e
        (r.1, .queryCmd "BEGIN" :: r.2)
    | .ok _ =>
        let afterPriority : Option (Except JsErr JsVal × List TxEvent) :=
          if priorityHigh then
            match priorityR with
            | .error e =>
                let r := catchRun e
                some (r.1, .queryCmd "SET TRANSACTION PRIORITY HIGH" :: r.2)
            | .ok _ => none
          else none
        match afterPriority with
        | some r =>
            (r.1, .queryCmd "BEGIN" :: r.2)
        | none =>
            let pEvents : List TxEvent :=
              if priorityHigh then
                [.queryCmd "BEGIN", .queryCmd "SET TRANSACTION PRIORITY HIGH"]
              else [.queryCmd "BEGIN"]
            match cb with
            | .error e =>
                let r := catchRun e
                (r.1, pEvents ++ r.2)
            | .ok v =>
                match commitR with
                | .ok _ => (.ok v, pEvents ++ [.queryCmd "COMMIT"])
                | .error ce =>
                    let r := catchRun ce
                    (r.1, pEvents ++ .queryCmd "COMMIT" :: r.2)
  (tryRun.1, tryRun.2 ++ [.release])

/-- `RedisAdapter.transaction(callback)`: builds a `MULTI` pipeline, runs
the callback, then `exec()`; any error is rethrown as
`DatabaseError("Redis transaction failed: " + message)`. No `DISCARD` is
ever issued and nothing is released. -/
def redisTransaction (cb : Except JsErr Unit) (execR : Except JsErr JsVal) :
    Except JsErr JsVal × List TxEvent :=
  match cb with
  | .error e =>
      (.error (.databaseError ("Redis transaction failed: " ++ e.message)),
       [.multi])
  | .ok _ =>
      match execR with
      | .ok v => (.ok v, [.multi, .exec])
      | .error e =>
          (.error (.databaseError ("Redis transaction failed: " ++ e.message)),
           [.multi, .exec])

/-! ## count / exists

The implemented pair lives on the TypeScript MongoAdapter class (in
src/adapters/InfluxDBAdapter.js): `count` resolves the model and delegates
to the driver's `countDocuments`, wrapping any error; `exists` returns
`count > 0`, wrapping any error. On `BaseAdapter` (and the Sequelize
PostgresAdapter) both methods throw `Not implemented`. -/

/-- `count(model, query)` of the implementing adapter: `driverCount` is the
outcome of the native `countDocuments` call. -/
def countOp (models : List String) (model : String)
    (driverCount : Except JsErr Nat) : Except JsErr Nat :=
  let body : Except JsErr Nat :=
    if models.contains model then driverCount
    else .error (.error ("Model " ++ model ++ " not found"))
  match body with
  | .ok n => .ok n
  | .error e =>
      .error (.databaseError ("Count operation failed: " ++ e.message))

/-- `exists(model, query)` of the implementing adapter:
`const count = await this.count(...); return count > 0;` with its own
error wrapper. -/
def existsOp (models : List String) (model : String)
    (driverCount : Except JsErr Nat) : Except JsErr Bool :=
  match countOp models model driverCount with
  | .ok n => .ok (decide (0 < n))
  | .error e =>
      .error (.databaseError ("Exists operation failed: " ++ e.message))

/-- `BaseAdapter.count` (part of the abstract base class): always throws. -/
def baseCount : Except JsErr Nat := .error (.error "Not implemented")

/-- `BaseAdapter.exists`: always throws. -/
def baseExistsOp : Except JsErr Bool := .error (.error "Not implemented")

/-! ## RedisAdapter key-value operations (src/adapters/RedisAdapter.js)

The Redis store itself holds strings; it is modelled as a key-to-string
entry list, with the `SET`/`GET` driver calls behaving as the store's
native commands (options defaulted, no TTL/NX/XX flags). -/

/-- `RedisAdapter._serialize(value)`: strings pass through raw, everything
else is `JSON.stringify`-ed. `none` models a top-level `undefined`
stringification (excluded by the claims's values). -/
def redisSerialize : JsVal → Option String
  | .str s => some s
  | v => jsonStringify v

/-- `RedisAdapter._deserialize(value)` applied to a `GET` reply (`none` is
the nil reply, which `ioredis` surfaces as `null`): `null` maps to `null`,
otherwise `JSON.parse` with fallback to the raw string. -/
def redisDeserialize : Option String → JsVal
  | none => .null
  | some s =>
      match jsonParse s with
      | some v => v
      | none => .str s

/-- `RedisAdapter.create(key, value)` with default options: `SET key
serialized`. -/
def redisCreate (store : List (String × String)) (k : String) (v : JsVal) :
    Option (List (String × String)) :=
  (redisSerialize v).map (setEntry store k)

/-- `RedisAdapter.get(key)`: `GET` then `_deserialize`. -/
def redisGet (store : List (String × String)) (k : String) : JsVal :=
  redisDeserialize (store.lookup k)

/-! ## Helper notions used by the theorems -/

/-- Substring test on strings. -/
def containsSubstr (needle hay : String) : Bool :=
  decide (needle.toList <:+: hay.toList)

/-- The operator keys `CockroachDBAdapter._buildOperatorCondition`
recognizes. -/
def cockroachOperators : List String :=
  ["$eq", "$ne", "$gt", "$gte", "$lt", "$lte", "$in", "$nin", "$like",
   "$ilike", "$contains", "$contained", "$overlap", "$any", "$all"]

/-- The operator keys `ArangoAdapter._buildOperatorExpression`
recognizes. -/
def arangoOperators : List String :=
  ["$eq", "$ne", "$gt", "$gte", "$lt", "$lte", "$in", "$nin", "$exists",
   "$regex"]

/-- The value-erased shape of one WHERE-clause entry: which branch of
`_buildWhereClause` it takes, and the operator keys when it takes the
operator branch. -/
def whereShape (v : JsVal) : Option (List String) :=
  if jsTypeof v == "object" && ! isNull v then
    match jsEntries v with
    | .ok es => some (es.map Prod.fst)
    | .error _ => none
  else none

/-- The value-erased shape of a whole query. -/
def whereShapes (q : List (String × JsVal)) : List (String × Option (List String)) :=
  q.map fun p => (p.1, whereShape p.2)

/-- The operand values of a query in emission order: the operands of each
operator entry in the operator branch, the literal value itself in the
equality branch. -/
def whereOperands : List (String × JsVal) → List JsVal
  | [] => []
  | (_, v) :: rest =>
      (if jsTypeof v == "object" && ! isNull v then
        match jsEntries v with
        | .ok es => es.map Prod.snd
        | .error _ => []
       else [v]) ++ whereOperands rest

/-- The first rejection among a list of settled outcomes. -/
def firstError : List (Except JsErr Unit) → Option JsErr
  | [] => none
  | .error e :: _ => some e
  | .ok _ :: rest => firstError rest

/-! ## Theorems -/

/-- Looking up the key just written by `setEntry` yields the written
value. -/
theorem setEntry_lookup {α : Type} (m : List (String × α)) (k : String)
    (v : α) : (setEntry m k v).lookup k = some v := by
  induction m with
  | nil => simp [setEntry]
  | cons p rest ih =>
      obtain ⟨k0, v0⟩ := p
      by_cases hk : k0 = k
      · subst hk
        simp [setEntry]
      · have hne : (k == k0) = false := beq_eq_false_iff_ne.mpr (Ne.symm hk)
        simp [setEntry, hk, List.lookup, hne, ih]

/-- C9: after `addAdapter(type, Ctor)`, `createDatabase` with that type
name in any letter case constructs an instance of `Ctor`; registering a
type name that is already present silently replaces the previous
constructor (the write succeeds and the registry afterwards maps the
lowercased name to the new constructor). -/
theorem c9_addAdapter_dispatch_replace
    (reg : List (String × String)) (t tq ctor : String) (cfg : JsVal)
    (fid : Nat) (ht : t ≠ "") (hlow : jsToLower tq = jsToLower t) :
    ∃ reg2, addAdapter reg t ctor = .ok reg2 ∧
      createDatabase reg2 tq cfg fid = .ok ⟨fid, ctor, cfg⟩ ∧
      reg2.lookup (jsToLower t) = some ctor := by
  refine ⟨setEntry reg (jsToLower t) ctor, ?_, ?_, ?_⟩
  · simp [addAdapter, ht]
  · simp [createDatabase, hlow, setEntry_lookup]
  · exact setEntry_lookup reg (jsToLower t) ctor

/-- Witness for C9: replacing the built-in `redis` registration with a
custom constructor and dispatching to it under a different letter case. -/
theorem c9_addAdapter_dispatch_replace_witness :
    ∃ reg2, addAdapter defaultAdapters "Redis" "MyRedisAdapter" = .ok reg2 ∧
      createDatabase reg2 "REDIS" (.obj []) 7 = .ok ⟨7, "MyRedisAdapter", .obj []⟩ ∧
      reg2.lookup (jsToLower "Redis") = some "MyRedisAdapter" :=
  c9_addAdapter_dispatch_replace defaultAdapters "Redis" "REDIS"
    "MyRedisAdapter" (.obj []) 7 (by decide) (by decide)

/-- C3 (amended): the cache key computed by `connect` is the deterministic
function `type + "-" + String(config.database)` of the type and the
config's `database` field alone: any two configs agreeing on `database`
yield the same key for a type, regardless of every other identity field
(host, port, uri, user). -/
theorem c3_connectionKey_only_database (t : String) (c1 c2 : JsVal)
    (h : jsGetV c1 "database" = jsGetV c2 "database") :
    connectionKey t c1 = connectionKey t c2 ∧
    connectionKey t c1 = t ++ "-" ++ jsTemplateStr (jsGetV c1 "database") := by
  constructor
  · simp [connectionKey, h]
  · rfl

/-- Witness for C3 (amended): two postgres configs with the same database
name on different hosts share a cache key. -/
theorem c3_connectionKey_only_database_witness :
    connectionKey "postgres"
        (.obj [("host", .str "db-a.internal"), ("database", .str "app")]) =
      connectionKey "postgres"
        (.obj [("host", .str "db-b.internal"), ("database", .str "app")]) ∧
    connectionKey "postgres"
        (.obj [("host", .str "db-a.internal"), ("database", .str "app")]) =
      "postgres" ++ "-" ++ jsTemplateStr (jsGetV
        (.obj [("host", .str "db-a.internal"), ("database", .str "app")])
        "database") :=
  c3_connectionKey_only_database "postgres"
    (.obj [("host", .str "db-a.internal"), ("database", .str "app")])
    (.obj [("host", .str "db-b.internal"), ("database", .str "app")]) rfl

/-- Counterexample to C3 as stated: two redis configs that denote distinct
logical connections (different host and port) collide on the cache key
`"redis-undefined"`, and a full `connect` on the second config silently
returns the instance cached for the first. -/
theorem c3_counterexample :
    connectionKey "redis" (.obj [("host", .str "cache-a"), ("port", .num 6379)]) =
      connectionKey "redis" (.obj [("host", .str "cache-b"), ("port", .num 6380)]) ∧
    jsGetV (.obj [("host", .str "cache-a"), ("port", .num 6379)]) "host" ≠
      jsGetV (.obj [("host", .str "cache-b"), ("port", .num 6380)]) "host" ∧
    (match connect OrmState.init "redis"
        (.obj [("host", .str "cache-a"), ("port", .num 6379)]) with
     | .ok (inst, st1) =>
        connect st1 "redis" (.obj [("host", .str "cache-b"), ("port", .num 6380)]) =
          .ok (inst, st1)
     | .error _ => False) := by
  refine ⟨rfl, ?_, ?_⟩
  · intro h
    simp [jsGetV, jsGet] at h
  · rfl

/-- C2: when `connect` returns an instance, calling it again on the
resulting state with the same type and config returns the identical cached
instance and leaves the state unchanged; and when a cache entry already
exists for the computed key, `connect` returns exactly that entry without
constructing anything (the state, including the allocation counter, is
untouched). -/
theorem c2_connect_idempotent
    (st : OrmState) (t : String) (c : JsVal) (a : Instance) (st2 : OrmState)
    (h : connect st t c = .ok (a, st2)) :
    connect st2 t c = .ok (a, st2) ∧
    (∀ cached, st.connections.lookup (connectionKey t c) = some cached →
       a = cached ∧ st2 = st) := by
  cases hv : validate t c with
  | error e =>
      rw [connect] at h
      simp [hv, Bind.bind, Except.bind] at h
  | ok u =>
      cases hl : st.connections.lookup (connectionKey t c) with
      | some inst =>
          rw [connect] at h
          simp [hv, hl, Bind.bind, Except.bind] at h
          obtain ⟨ha, hst⟩ := h
          subst ha
          subst hst
          constructor
          · rw [connect]
            simp [hv, hl, Bind.bind, Except.bind]
          · intro cached hc
            exact ⟨Option.some.inj hc, rfl⟩
      | none =>
          cases hcd : createDatabase st.adapters t c st.nextId with
          | error e =>
              rw [connect] at h
              simp [hv, hl, hcd, Bind.bind, Except.bind] at h
          | ok inst =>
              rw [connect] at h
              simp [hv, hl, hcd, Bind.bind, Except.bind] at h
              obtain ⟨ha, hst⟩ := h
              constructor
              · rw [connect]
                have hl2 : st2.connections.lookup (connectionKey t c) = some a := by
                  rw [← hst]
                  simp [setEntry_lookup, ← ha]
                simp [hv, hl2, Bind.bind, Except.bind]
              · intro cached hc
                exact absurd hc (by simp)

/-- Witness for C2: a first `connect` for redis caches the instance and a
second identical call returns the very same instance and state. -/
theorem c2_connect_idempotent_witness :
    connect
      ⟨[("redis-undefined",
         ⟨0, "RedisAdapter", .obj [("host", .str "h"), ("port", .num 6379)]⟩)],
       defaultAdapters, 1⟩
      "redis" (.obj [("host", .str "h"), ("port", .num 6379)]) =
      .ok (⟨0, "RedisAdapter", .obj [("host", .str "h"), ("port", .num 6379)]⟩,
        ⟨[("redis-undefined",
           ⟨0, "RedisAdapter", .obj [("host", .str "h"), ("port", .num 6379)]⟩)],
         defaultAdapters, 1⟩) :=
  (c2_connect_idempotent OrmState.init "redis"
    (.obj [("host", .str "h"), ("port", .num 6379)])
    ⟨0, "RedisAdapter", .obj [("host", .str "h"), ("port", .num 6379)]⟩
    ⟨[("redis-undefined",
       ⟨0, "RedisAdapter", .obj [("host", .str "h"), ("port", .num 6379)]⟩)],
     defaultAdapters, 1⟩ rfl).1

/-- C7 (amended): `connect` with a config missing required fields fails
with a `DatabaseError` whose message names only the FIRST missing required
field, in the declaration order of that backend's required-field list (the
validator throws a plain `Error` at the first falsy field; `connect` wraps
it as `DatabaseError("Connection failed: " + message)`). -/
theorem c7_validate_first_missing_only (t : String) (c : JsVal)
    (fields : List String) (f : String) (ht : t ≠ "")
    (htr : truthy c = true) (hob : jsTypeof c = "object")
    (hf : requiredFields.lookup (jsToLower t) = some fields)
    (hm : firstMissingField c fields = some f) :
    validate t c = .error (.error ("Missing required field: " ++ f)) ∧
    ∀ st, connect st t c =
      .error (.databaseError
        ("Connection failed: " ++ ("Missing required field: " ++ f))) := by
  have hv : validate t c = .error (.error ("Missing required field: " ++ f)) := by
    rw [validate]
    simp [ht, htr, hob, hf, hm]
  refine ⟨hv, fun st => ?_⟩
  rw [connect]
  simp [hv, Bind.bind, Except.bind, JsErr.message]

/-- Witness for C7 (amended): a postgres config providing only `host` fails
naming `port`, the first missing field of its required list. -/
theorem c7_validate_first_missing_only_witness :
    validate "postgres" (.obj [("host", .str "h")]) =
      .error (.error ("Missing required field: " ++ "port")) ∧
    connect OrmState.init "postgres" (.obj [("host", .str "h")]) =
      .error (.databaseError
        ("Connection failed: " ++ ("Missing required field: " ++ "port"))) :=
  ⟨(c7_validate_first_missing_only "postgres" (.obj [("host", .str "h")])
      ["host", "port", "database", "user", "password"] "port"
      (by decide) rfl rfl rfl rfl).1,
   (c7_validate_first_missing_only "postgres" (.obj [("host", .str "h")])
      ["host", "port", "database", "user", "password"] "port"
      (by decide) rfl rfl rfl rfl).2 OrmState.init⟩

/-- Counterexample to C7 as stated: a postgres config missing host, port,
database, user and password fails naming only `host`; none of the other
missing fields are enumerated in the error (and the error class is
`DatabaseError` wrapping a plain `Error`, there is no `ConfigError`). -/
theorem c7_counterexample :
    validate "postgres" (.obj [("host", .str "localhost")]) =
      .error (.error "Missing required field: port") ∧
    connect OrmState.init "postgres" (.obj []) =
      .error (.databaseError "Connection failed: Missing required field: host") ∧
    (match connect OrmState.init "postgres" (.obj []) with
     | .error e => containsSubstr "port" e.message ||
         containsSubstr "user" e.message ||
         containsSubstr "password" e.message ||
         containsSubstr "database" e.message
     | .ok _ => true) = false := by
  refine ⟨rfl, rfl, by decide⟩

/-- `Promise.all` resolves iff no input rejects; otherwise it rejects with
the first rejection. -/
theorem promiseAll_eq_firstError (rs : List (Except JsErr Unit)) :
    promiseAll rs = (match firstError rs with
      | some e => .error e
      | none => .ok (rs.map fun _ => ())) := by
  induction rs with
  | nil => rfl
  | cons r rest ih =>
      cases r with
      | error e => rfl
      | ok u =>
          cases hf : firstError rest with
          | some e => simp [promiseAll, firstError, ih, hf]
          | none => simp [promiseAll, firstError, ih, hf]

/-- C6 (amended): `closeAll` starts `close()` on every cached adapter and
awaits them with `Promise.all`: when every close fulfills it resolves and
clears the connection cache; when any close rejects it rejects with the
FIRST rejecting close's error alone — the remaining failures are neither
aggregated nor reported — and the connection cache is left unchanged. -/
theorem c6_closeAll_first_error (st : OrmState)
    (f : Instance → Except JsErr Unit) :
    ((firstError (st.connections.map fun p => f p.2) = none) →
       closeAll st f = (.ok (), { st with connections := [] })) ∧
    (∀ e, firstError (st.connections.map fun p => f p.2) = some e →
       closeAll st f = (.error e, st)) := by
  constructor
  · intro h
    rw [closeAll, promiseAll_eq_firstError]
    simp [h]
  · intro e h
    rw [closeAll, promiseAll_eq_firstError]
    simp [h]

/-- Witness for C6 (amended): both branches at a one-entry cache. -/
theorem c6_closeAll_first_error_witness :
    closeAll ⟨[("k", ⟨0, "RedisAdapter", .null⟩)], defaultAdapters, 1⟩
        (fun _ => .ok ()) = (.ok (), ⟨[], defaultAdapters, 1⟩) ∧
    closeAll ⟨[("k", ⟨0, "RedisAdapter", .null⟩)], defaultAdapters, 1⟩
        (fun _ => .error (.error "nope")) =
      (.error (.error "nope"),
       ⟨[("k", ⟨0, "RedisAdapter", .null⟩)], defaultAdapters, 1⟩) :=
  ⟨(c6_closeAll_first_error
      ⟨[("k", ⟨0, "RedisAdapter", .null⟩)], defaultAdapters, 1⟩
      (fun _ => .ok ())).1 rfl,
   (c6_closeAll_first_error
      ⟨[("k", ⟨0, "RedisAdapter", .null⟩)], defaultAdapters, 1⟩
      (fun _ => .error (.error "nope"))).2 (.error "nope") rfl⟩

/-- Counterexample to C6 as stated: with two cached adapters whose closes
both reject, `closeAll` rejects with the first close's error alone (the
second failure appears nowhere, so it is silently swallowed rather than
combined) and the connection cache is NOT cleared. -/
theorem c6_counterexample :
    (closeAll ⟨[("redis-a", ⟨0, "RedisAdapter", .null⟩),
                ("redis-b", ⟨1, "RedisAdapter", .null⟩)], defaultAdapters, 2⟩
        (fun i => .error (.error ("close failed " ++ toString i.id)))).1 =
      .error (.error "close failed 0") ∧
    (closeAll ⟨[("redis-a", ⟨0, "RedisAdapter", .null⟩),
                ("redis-b", ⟨1, "RedisAdapter", .null⟩)], defaultAdapters, 2⟩
        (fun i => .error (.error ("close failed " ++ toString i.id)))).2.connections.length = 2 ∧
    (match (closeAll ⟨[("redis-a", ⟨0, "RedisAdapter", .null⟩),
                ("redis-b", ⟨1, "RedisAdapter", .null⟩)], defaultAdapters, 2⟩
        (fun i => .error (.error ("close failed " ++ toString i.id)))).1 with
     | .error e => containsSubstr "1" e.message
     | .ok _ => true) = false := by
  refine ⟨rfl, rfl, by decide⟩

/-- C8: `exists(model, predicate)` returns `true` exactly when
`count(model, predicate)` returns a number strictly greater than 0 — for
the implementing adapter under every model registry and driver outcome
(when `count` rejects, `exists` rejects too and neither side holds), and
vacuously for the `BaseAdapter`/Sequelize-Postgres pair whose `count` and
`exists` both always throw `Not implemented`. -/
theorem c8_exists_iff_count_positive (models : List String) (model : String)
    (driverCount : Except JsErr Nat) :
    (existsOp models model driverCount = .ok true ↔
       ∃ n, countOp models model driverCount = .ok n ∧ 0 < n) ∧
    (baseExistsOp = .ok true ↔ ∃ n, baseCount = .ok n ∧ 0 < n) := by
  constructor
  · cases hc : countOp models model driverCount with
    | ok n => simp [existsOp, hc]
    | error e => simp [existsOp, hc]
  · simp [baseExistsOp, baseCount]

/-- C4 (amended): the CockroachDB and Arango compilers throw a plain
`Error("Unknown operator: <op>")` at compile time for every operator key
outside their recognized sets (never emitting a condition for it), with no
distinct `QueryCompileError`/`UnsupportedOperatorError` classes; the Mongo
converter never raises for an unrecognized operator key — it keeps exactly
the recognized entries of an operator object and passes the original value
through unchanged when none are recognized, silently dropping the rest. -/
theorem c4_unknown_operator_handling (key op : String) (v : JsVal) (n : Nat)
    (k : String) (es : List (String × JsVal)) :
    (op ∉ cockroachOperators →
       buildOperatorCondition key op v n =
         .error (.error ("Unknown operator: " ++ op))) ∧
    (op ∉ arangoOperators →
       buildOperatorExpression key op v =
         .error (.error ("Unknown operator: " ++ op))) ∧
    (processQueryOperators [(k, .obj es)] mongoOperatorMap =
       .ok [(k,
         if (es.filterMap fun p =>
              match mongoOperatorMap.lookup p.1 with
              | some mapped => some (mapped, p.2)
              | none => none).length > 0
         then .obj (es.filterMap fun p =>
              match mongoOperatorMap.lookup p.1 with
              | some mapped => some (mapped, p.2)
              | none => none)
         else .obj es)]) := by
  refine ⟨?_, ?_, ?_⟩
  · intro h
    simp only [cockroachOperators, List.mem_cons, List.mem_singleton,
      not_or] at h
    obtain ⟨h1, h2, h3, h4, h5, h6, h7, h8, h9, h10, h11, h12, h13, h14,
      h15, -⟩ := h
    rw [buildOperatorCondition.eq_def]
    split <;> simp_all
  · intro h
    simp only [arangoOperators, List.mem_cons, List.mem_singleton,
      not_or] at h
    obtain ⟨h1, h2, h3, h4, h5, h6, h7, h8, h9, h10, -⟩ := h
    rw [buildOperatorExpression.eq_def]
    split <;> simp_all
  · simp [processQueryOperators, jsEntries, jsTypeof, isArray]

/-- Witness for C4 (amended): the `$between` operator, recognized nowhere,
makes both SQL-side compilers throw. -/
theorem c4_unknown_operator_handling_witness :
    buildOperatorCondition "age" "$between" (.arr [.num 18, .num 30]) 1 =
      .error (.error ("Unknown operator: " ++ "$between")) ∧
    buildOperatorExpression "age" "$between" (.arr [.num 18, .num 30]) =
      .error (.error ("Unknown operator: " ++ "$between")) :=
  ⟨(c4_unknown_operator_handling "age" "$between" (.arr [.num 18, .num 30]) 1
      "k" []).1 (by decide),
   (c4_unknown_operator_handling "age" "$between" (.arr [.num 18, .num 30]) 1
      "k" []).2.1 (by decide)⟩

/-- Counterexample to C4 as stated: the Mongo converter, handed the
unknown operator key `$between` next to `$gt`, silently drops the
`$between` condition and raises no error; handed an object whose only key
is the (Mongo-)unsupported `$contains`, it passes the object through
unchanged as a literal — in neither case does any
`QueryCompileError`/`UnsupportedOperatorError` failure occur. -/
theorem c4_counterexample :
    processQueryOperators
        [("age", .obj [("$between", .arr [.num 18, .num 30]), ("$gt", .num 5)])]
        mongoOperatorMap = .ok [("age", .obj [("$gt", .num 5)])] ∧
    processQueryOperators [("tags", .obj [("$contains", .str "x")])]
        mongoOperatorMap =
      .ok [("tags", .obj [("$contains", .str "x")])] :=
  ⟨rfl, rfl⟩

/-- The condition text emitted by `_buildOperatorCondition` does not depend
on the operand value. -/
theorem buildOperatorCondition_text_const (key op : String) (v1 v2 : JsVal)
    (n : Nat) :
    (buildOperatorCondition key op v1 n).map Prod.fst =
      (buildOperatorCondition key op v2 n).map Prod.fst := by
  rw [buildOperatorCondition.eq_def, buildOperatorCondition.eq_def]
  split <;> rfl

/-- `_buildOperatorCondition` passes the operand through as the binding. -/
theorem buildOperatorCondition_value (key op : String) (v : JsVal) (n : Nat)
    (c : String) (w : JsVal)
    (h : buildOperatorCondition key op v n = .ok (c, w)) : w = v := by
  rw [buildOperatorCondition.eq_def] at h
  split at h <;> simp_all


/-- A value taking the operator branch of `_buildWhereClause` has entries. -/
theorem guard_jsEntries (v : JsVal)
    (h : (jsTypeof v == "object" && ! isNull v) = true) :
    ∃ es, jsEntries v = .ok es := by
  cases v <;> simp_all [jsTypeof, isNull, jsEntries]

/-- The conditions and final placeholder count of the operator loop depend
only on the operator keys, not on the operand values. -/
theorem buildOpsConditions_shape (k : String) :
    ∀ (es1 es2 : List (String × JsVal)) (pc : Nat),
    es1.map Prod.fst = es2.map Prod.fst →
    (buildOpsConditions k es1 pc).map (fun r => (r.1, r.2.2)) =
      (buildOpsConditions k es2 pc).map (fun r => (r.1, r.2.2)) := by
  intro es1
  induction es1 with
  | nil =>
      intro es2 pc h
      cases es2 with
      | nil => rfl
      | cons p rest => simp at h
  | cons p rest ih =>
      intro es2 pc h
      cases es2 with
      | nil => simp at h
      | cons p2 rest2 =>
          obtain ⟨k1, v1⟩ := p
          obtain ⟨k2, v2⟩ := p2
          simp at h
          obtain ⟨hk, hrest⟩ := h
          subst hk
          have hcond := buildOperatorCondition_text_const k k1 v1 v2 pc
          rw [buildOpsConditions, buildOpsConditions]
          cases h1 : buildOperatorCondition k k1 v1 pc with
          | error e =>
              cases h2 : buildOperatorCondition k k1 v2 pc with
              | error e2 =>
                  rw [h1, h2] at hcond
                  simp [Except.map] at hcond
                  subst hcond
                  rfl
              | ok r2 =>
                  rw [h1, h2] at hcond
                  simp [Except.map] at hcond
          | ok r1 =>
              cases h2 : buildOperatorCondition k k1 v2 pc with
              | error e2 =>
                  rw [h1, h2] at hcond
                  simp [Except.map] at hcond
              | ok r2 =>
                  rw [h1, h2] at hcond
                  simp [Except.map] at hcond
                  have hrec := ih rest2 (pc + 1) hrest
                  cases hr1 : buildOpsConditions k rest (pc + 1) with
                  | error e =>
                      cases hr2 : buildOpsConditions k rest2 (pc + 1) with
                      | error e2 =>
                          rw [hr1, hr2] at hrec
                          simp [Except.map] at hrec
                          subst hrec
                          rfl
                      | ok s2 =>
                          rw [hr1, hr2] at hrec
                          simp [Except.map] at hrec
                  | ok s1 =>
                      cases hr2 : buildOpsConditions k rest2 (pc + 1) with
                      | error e2 =>
                          rw [hr1, hr2] at hrec
                          simp [Except.map] at hrec
                      | ok s2 =>
                          rw [hr1, hr2] at hrec
                          simp [Except.map] at hrec
                          simp [h1, h2, hr1, hr2, Except.map, hcond,
                            hrec.1, hrec.2]


/-- The operator loop pushes exactly the operand values, in order, as the
bindings. -/
theorem buildOpsConditions_values (k : String) :
    ∀ (es : List (String × JsVal)) (pc : Nat) (cs : List String)
      (vs : List JsVal) (pc2 : Nat),
    buildOpsConditions k es pc = .ok (cs, vs, pc2) → vs = es.map Prod.snd := by
  intro es
  induction es with
  | nil =>
      intro pc cs vs pc2 h
      rw [buildOpsConditions] at h
      simp at h
      simp [h.2.1]
  | cons p rest ih =>
      intro pc cs vs pc2 h
      obtain ⟨op, v⟩ := p
      rw [buildOpsConditions] at h
      cases h1 : buildOperatorCondition k op v pc with
      | error e => rw [h1] at h; simp at h
      | ok r =>
          rw [h1] at h
          cases hr : buildOpsConditions k rest (pc + 1) with
          | error e => rw [hr] at h; simp at h
          | ok s =>
              rw [hr] at h
              simp at h
              obtain ⟨-, hvs, -⟩ := h
              have hv := buildOperatorCondition_value k op v pc r.1 r.2 (by rw [h1])
              have hs := ih (pc + 1) s.1 s.2.1 s.2.2 (by rw [hr])
              simp [← hvs, hv, hs]



/-- The conditions text of `_buildWhereClause`'s outer loop depends only on
the value-erased shape of the query, never on operand values. -/
theorem buildWhereAux_shape :
    ∀ (q1 q2 : List (String × JsVal)) (pc : Nat),
    whereShapes q1 = whereShapes q2 →
    (buildWhereAux q1 pc).map Prod.fst = (buildWhereAux q2 pc).map Prod.fst := by
  intro q1
  induction q1 with
  | nil =>
      intro q2 pc h
      cases q2 with
      | nil => rfl
      | cons p rest => simp [whereShapes] at h
  | cons p rest ih =>
      intro q2 pc h
      cases q2 with
      | nil => simp [whereShapes] at h
      | cons p2 rest2 =>
          obtain ⟨k1, v1⟩ := p
          obtain ⟨k2, v2⟩ := p2
          simp [whereShapes] at h
          obtain ⟨⟨hk, hshape⟩, hrest⟩ := h
          subst hk
          rw [buildWhereAux, buildWhereAux]
          by_cases hg : (jsTypeof v1 == "object" && ! isNull v1) = true
          · have hg2 : (jsTypeof v2 == "object" && ! isNull v2) = true := by
              by_contra hg2
              simp [whereShape, hg, hg2] at hshape
              obtain ⟨es1, he1⟩ := guard_jsEntries v1 hg
              simp [he1] at hshape
            obtain ⟨es1, he1⟩ := guard_jsEntries v1 hg
            obtain ⟨es2, he2⟩ := guard_jsEntries v2 hg2
            have hmaps : es1.map Prod.fst = es2.map Prod.fst := by
              simp [whereShape, hg, hg2, he1, he2] at hshape
              exact hshape
            rw [if_pos hg, if_pos hg2, he1, he2]
            have hops := buildOpsConditions_shape k1 es1 es2 pc hmaps
            cases ho1 : buildOpsConditions k1 es1 pc with
            | error e =>
                cases ho2 : buildOpsConditions k1 es2 pc with
                | error e2 =>
                    rw [ho1, ho2] at hops
                    simp [Except.map] at hops
                    simp [ho1, ho2, hops, Except.map]
                | ok s2 =>
                    rw [ho1, ho2] at hops
                    simp [Except.map] at hops
            | ok s1 =>
                cases ho2 : buildOpsConditions k1 es2 pc with
                | error e2 =>
                    rw [ho1, ho2] at hops
                    simp [Except.map] at hops
                | ok s2 =>
                    rw [ho1, ho2] at hops
                    simp [Except.map] at hops
                    have hrec := ih rest2 s1.2.2 hrest
                    rw [hops.2] at hrec
                    cases hw1 : buildWhereAux rest s2.2.2 with
                    | error e =>
                        cases hw2 : buildWhereAux rest2 s2.2.2 with
                        | error e2 =>
                            rw [hw1, hw2] at hrec
                            simp [Except.map] at hrec
                            simp [ho1, ho2, hops.1, hops.2, hw1, hw2, hrec,
                              Except.map]
                        | ok w2 =>
                            rw [hw1, hw2] at hrec
                            simp [Except.map] at hrec
                    | ok w1 =>
                        cases hw2 : buildWhereAux rest2 s2.2.2 with
                        | error e2 =>
                            rw [hw1, hw2] at hrec
                            simp [Except.map] at hrec
                        | ok w2 =>
                            rw [hw1, hw2] at hrec
                            simp [Except.map] at hrec
                            simp [ho1, ho2, hops.1, hops.2, hw1, hw2, hrec,
                              Except.map]
          · have hg2 : ¬ ((jsTypeof v2 == "object" && ! isNull v2) = true) := by
              intro hg2
              simp [whereShape, hg, hg2] at hshape
              obtain ⟨es2, he2⟩ := guard_jsEntries v2 hg2
              simp [he2] at hshape
            rw [if_neg hg, if_neg hg2]
            have hrec := ih rest2 (pc + 1) hrest
            cases hw1 : buildWhereAux rest (pc + 1) with
            | error e =>
                cases hw2 : buildWhereAux rest2 (pc + 1) with
                | error e2 =>
                    rw [hw1, hw2] at hrec
                    simp [Except.map] at hrec
                    simp [hw1, hw2, hrec, Except.map]
                | ok w2 =>
                    rw [hw1, hw2] at hrec
                    simp [Except.map] at hrec
            | ok w1 =>
                cases hw2 : buildWhereAux rest2 (pc + 1) with
                | error e2 =>
                    rw [hw1, hw2] at hrec
                    simp [Except.map] at hrec
                | ok w2 =>
                    rw [hw1, hw2] at hrec
                    simp [Except.map] at hrec
                    simp [hw1, hw2, hrec, Except.map]




/-- The outer loop pushes exactly the operand values, in order, as the
bindings. -/
theorem buildWhereAux_values :
    ∀ (q : List (String × JsVal)) (pc : Nat) (cs : List String)
      (vs : List JsVal),
    buildWhereAux q pc = .ok (cs, vs) → vs = whereOperands q := by
  intro q
  induction q with
  | nil =>
      intro pc cs vs h
      rw [buildWhereAux] at h
      simp at h
      simp [whereOperands, h.2]
  | cons p rest ih =>
      intro pc cs vs h
      obtain ⟨k1, v1⟩ := p
      rw [buildWhereAux] at h
      by_cases hg : (jsTypeof v1 == "object" && ! isNull v1) = true
      · rw [if_pos hg] at h
        obtain ⟨es1, he1⟩ := guard_jsEntries v1 hg
        simp only [he1] at h
        cases ho : buildOpsConditions k1 es1 pc with
        | error e => simp only [ho] at h; simp at h
        | ok s =>
            simp only [ho] at h
            cases hw : buildWhereAux rest s.2.2 with
            | error e => simp only [hw] at h; simp at h
            | ok w =>
                simp only [hw] at h
                simp at h
                have h1 := buildOpsConditions_values k1 es1 pc s.1 s.2.1 s.2.2
                  (by rw [ho])
                have h2 := ih s.2.2 w.1 w.2 (by rw [hw])
                simp [whereOperands, hg, he1, ← h.2, h1, h2]
      · rw [if_neg hg] at h
        cases hw : buildWhereAux rest (pc + 1) with
        | error e => simp only [hw] at h; simp at h
        | ok w =>
            simp only [hw] at h
            simp at h
            have h2 := ih (pc + 1) w.1 w.2 (by rw [hw])
            simp [whereOperands, hg, ← h.2, h2]

/-- C5 (amended): in the CockroachDB compiler the WHERE fragment is safely
parameterized — its conditions text is a function of the query's
value-erased shape alone (so no operand value can reach the text) and the
bindings are exactly the operand values in order — but `_buildSelectQuery`
splices the `limit` (and `offset`) option values and `_formatDefaultValue`
splices schema default values directly into the emitted text rather than
binding them. -/
theorem c5_where_parameterized (q1 q2 : List (String × JsVal))
    (tbl sel : String) (l : JsVal) :
    (whereShapes q1 = whereShapes q2 →
       (buildWhereClause q1).map Prod.fst =
         (buildWhereClause q2).map Prod.fst) ∧
    (∀ c vs, buildWhereClause q1 = .ok (c, vs) → vs = whereOperands q1) ∧
    (truthy l = true →
       ∀ t vs, buildSelectQuery tbl q1 sel .undefined l .undefined .undefined = .ok (t, vs) →
         (∃ t0, t = t0 ++ " LIMIT " ++ jsTemplateStr l) ∧
         vs = whereOperands q1) := by
  refine ⟨?_, ?_, ?_⟩
  · intro h
    have haux := buildWhereAux_shape q1 q2 1 h
    rw [buildWhereClause, buildWhereClause]
    cases h1 : buildWhereAux q1 1 with
    | error e =>
        cases h2 : buildWhereAux q2 1 with
        | error e2 =>
            rw [h1, h2] at haux
            simp [Except.map] at haux
            simp [haux, Except.map]
        | ok w2 =>
            rw [h1, h2] at haux
            simp [Except.map] at haux
    | ok w1 =>
        cases h2 : buildWhereAux q2 1 with
        | error e2 =>
            rw [h1, h2] at haux
            simp [Except.map] at haux
        | ok w2 =>
            rw [h1, h2] at haux
            simp [Except.map] at haux
            simp [haux, Except.map]
  · intro c vs h
    rw [buildWhereClause] at h
    cases h1 : buildWhereAux q1 1 with
    | error e => simp only [h1] at h; simp at h
    | ok w =>
        simp only [h1] at h
        simp at h
        have := buildWhereAux_values q1 1 w.1 w.2 (by rw [h1])
        simp [← h.2, this]
  · intro hl t vs h
    rw [buildSelectQuery] at h
    cases h1 : buildWhereClause q1 with
    | error e => rw [h1] at h; simp at h
    | ok w =>
        rw [h1] at h
        simp [hl, jsEntries, show truthy .undefined = false from rfl] at h
        refine ⟨⟨_, h.1.symm⟩, ?_⟩
        have h2 : buildWhereClause q1 = .ok (w.1, w.2) := by rw [h1]
        rw [buildWhereClause] at h2
        cases h3 : buildWhereAux q1 1 with
        | error e => simp only [h3] at h2; simp at h2
        | ok w3 =>
            simp only [h3] at h2
            injection h2 with hp
            have hsnd := congrArg Prod.snd hp
            simp at hsnd
            have := buildWhereAux_values q1 1 w3.1 w3.2 (by rw [h3])
            rw [← h.2, ← hsnd, this]


/-- Witness for C5 (amended): two same-shape queries with different
operands compile to identical WHERE text; the bindings are exactly the
operands; the emitted select text ends with the spliced `LIMIT 7`. -/
theorem c5_where_parameterized_witness :
    (buildWhereClause [("name", .obj [("$eq", .str "x")])]).map Prod.fst =
      (buildWhereClause [("name", .obj [("$eq", .num 99)])]).map Prod.fst ∧
    ([JsVal.str "x"] = whereOperands [("name", .obj [("$eq", .str "x")])]) ∧
    ((∃ t0,
        ("\n            SELECT *\n            FROM users\n            WHERE name = $1\n         LIMIT 7" : String) =
          t0 ++ " LIMIT " ++ jsTemplateStr (.num 7)) ∧
      [JsVal.str "x"] = whereOperands [("name", .obj [("$eq", .str "x")])]) :=
  ⟨(c5_where_parameterized [("name", .obj [("$eq", .str "x")])]
      [("name", .obj [("$eq", .num 99)])] "users" "*" (.num 7)).1 rfl,
   (c5_where_parameterized [("name", .obj [("$eq", .str "x")])]
      [("name", .obj [("$eq", .num 99)])] "users" "*" (.num 7)).2.1
     "name = $1" [.str "x"] rfl,
   (c5_where_parameterized [("name", .obj [("$eq", .str "x")])]
      [("name", .obj [("$eq", .num 99)])] "users" "*" (.num 7)).2.2
     rfl
     "\n            SELECT *\n            FROM users\n            WHERE name = $1\n         LIMIT 7"
     [.str "x"] rfl⟩

set_option maxRecDepth 8192 in
/-- Counterexample to C5 as stated: compiling a select with option
`limit = 5` splices the raw value 5 into the query text (`LIMIT 5`) with no
placeholder and no binding for it, and `_formatDefaultValue` splices a raw
schema default value, quoted, into DDL text. -/
theorem c5_counterexample :
    buildSelectQuery "users" [("name", .obj [("$eq", .str "x")])] "*"
        .undefined (.num 5) .undefined .undefined =
      .ok ("\n            SELECT *\n            FROM users\n            WHERE name = $1\n         LIMIT 5",
        [.str "x"]) ∧
    containsSubstr "LIMIT 5"
      "\n            SELECT *\n            FROM users\n            WHERE name = $1\n         LIMIT 5" = true ∧
    formatDefaultValue (.str "ab") "string" =
      .ok (.str (String.singleton (Char.ofNat 39) ++ "ab" ++
        String.singleton (Char.ofNat 39))) :=
  ⟨rfl, by decide, rfl⟩

/-- C1 (amended): for the Mongo and CockroachDB adapters, `transaction`
commits and returns the callback's result when the callback and the commit
call succeed; when the callback throws, the adapter first issues the
rollback call (`abortTransaction` / `ROLLBACK`) and then rethrows the error
wrapped as `DatabaseError` — not `TransactionError`, which the codebase
never defines — while a rejection of the rollback call itself propagates
unwrapped; the Mongo session (`endSession`) and the Cockroach pool client
(`release`) are released in a `finally` block on every exit path. The Redis
adapter's `transaction` wraps any callback error as `DatabaseError` without
issuing any rollback/`DISCARD`, and holds no session to release. -/
theorem c1_transaction_behavior
    (cb : Except JsErr JsVal) (commitR abortR : Except JsErr Unit)
    (ph : Bool) (beginR priorityR commitR2 rollbackR : Except JsErr Unit)
    (rcb : Except JsErr Unit) (execR : Except JsErr JsVal) :
    (.endSession ∈ (mongoTransaction cb commitR abortR).2) ∧
    (∀ v, cb = .ok v → commitR = .ok () →
       mongoTransaction cb commitR abortR =
         (.ok v, [.startTransaction, .commitTransaction, .endSession])) ∧
    (∀ e, cb = .error e →
       .abortTransaction ∈ (mongoTransaction cb commitR abortR).2 ∧
       (mongoTransaction cb commitR abortR).1 =
         (match abortR with
          | .ok _ => .error (.databaseError ("Transaction failed: " ++ e.message))
          | .error ae => .error ae)) ∧
    (.release ∈ (cockroachTransaction ph cb beginR priorityR commitR2 rollbackR).2) ∧
    (∀ v, beginR = .ok () → (ph = true → priorityR = .ok ()) → cb = .ok v →
       commitR2 = .ok () →
       (cockroachTransaction ph cb beginR priorityR commitR2 rollbackR).1 = .ok v ∧
       .queryCmd "COMMIT" ∈
         (cockroachTransaction ph cb beginR priorityR commitR2 rollbackR).2) ∧
    (∀ e, beginR = .ok () → (ph = true → priorityR = .ok ()) → cb = .error e →
       .queryCmd "ROLLBACK" ∈
         (cockroachTransaction ph cb beginR priorityR commitR2 rollbackR).2 ∧
       (cockroachTransaction ph cb beginR priorityR commitR2 rollbackR).1 =
         (match rollbackR with
          | .ok _ => .error (.databaseError ("Transaction failed: " ++ e.message))
          | .error re => .error re)) ∧
    (∀ e, rcb = .error e →
       redisTransaction rcb execR =
         (.error (.databaseError ("Redis transaction failed: " ++ e.message)),
          [.multi])) := by
  refine ⟨?_, ?_, ?_, ?_, ?_, ?_, ?_⟩
  · cases cb <;> cases commitR <;> cases abortR <;> simp [mongoTransaction]
  · intro v hv hc
    subst hv
    subst hc
    rfl
  · intro e he
    subst he
    cases abortR <;> simp [mongoTransaction]
  · cases ph <;> cases cb <;> cases beginR <;> cases priorityR <;>
      cases commitR2 <;> cases rollbackR <;> simp [cockroachTransaction]
  · intro v hb hp hcb hc
    subst hb
    subst hcb
    subst hc
    cases ph with
    | true =>
        have hpr := hp rfl
        subst hpr
        simp [cockroachTransaction]
    | false => simp [cockroachTransaction]
  · intro e hb hp hcb
    subst hb
    subst hcb
    cases ph with
    | true =>
        have hpr := hp rfl
        subst hpr
        cases rollbackR <;> simp [cockroachTransaction]
    | false => cases rollbackR <;> simp [cockroachTransaction]
  · intro e he
    subst he
    rfl


/-- Witness for C1 (amended): concrete runs of all three adapters — a
committing Mongo run, failing-callback runs of Mongo and Cockroach that
roll back and wrap as `DatabaseError`, and a failing-callback Redis run
with no rollback. -/
theorem c1_transaction_behavior_witness :
    mongoTransaction (.ok (.num 1)) (.ok ()) (.ok ()) =
      (.ok (.num 1), [.startTransaction, .commitTransaction, .endSession]) ∧
    (mongoTransaction (.error (.error "boom")) (.ok ()) (.ok ())).1 =
      .error (.databaseError "Transaction failed: boom") ∧
    (cockroachTransaction false (.error (.error "boom")) (.ok ()) (.ok ())
        (.ok ()) (.ok ())).1 =
      .error (.databaseError "Transaction failed: boom") ∧
    .queryCmd "ROLLBACK" ∈
      (cockroachTransaction false (.error (.error "boom")) (.ok ()) (.ok ())
        (.ok ()) (.ok ())).2 ∧
    redisTransaction (.error (.error "boom")) (.ok (.num 1)) =
      (.error (.databaseError "Redis transaction failed: boom"), [.multi]) :=
  ⟨(c1_transaction_behavior (.ok (.num 1)) (.ok ()) (.ok ()) false (.ok ())
      (.ok ()) (.ok ()) (.ok ()) (.ok ()) (.ok .null)).2.1 (.num 1) rfl rfl,
   ((c1_transaction_behavior (.error (.error "boom")) (.ok ()) (.ok ()) false
      (.ok ()) (.ok ()) (.ok ()) (.ok ()) (.ok ()) (.ok .null)).2.2.1
      (.error "boom") rfl).2.trans rfl,
   ((c1_transaction_behavior (.error (.error "boom")) (.ok ()) (.ok ()) false
      (.ok ()) (.ok ()) (.ok ()) (.ok ()) (.ok ()) (.ok .null)).2.2.2.2.2.1
      (.error "boom") rfl (fun h => nomatch h) rfl).2.trans rfl,
   ((c1_transaction_behavior (.error (.error "boom")) (.ok ()) (.ok ()) false
      (.ok ()) (.ok ()) (.ok ()) (.ok ()) (.ok ()) (.ok .null)).2.2.2.2.2.1
      (.error "boom") rfl (fun h => nomatch h) rfl).1,
   ((c1_transaction_behavior (.ok .null) (.ok ()) (.ok ()) false (.ok ())
      (.ok ()) (.ok ()) (.ok ()) (.error (.error "boom")) (.ok (.num 1))).2.2.2.2.2.2
      (.error "boom") rfl).trans rfl⟩

/-- Counterexample to C1 as stated: a Redis transaction whose callback
throws rethrows the error wrapped as `DatabaseError`, not
`TransactionError`, and issues no rollback/`DISCARD` at all; the Mongo
wrapper on the rollback path is likewise `DatabaseError`. -/
theorem c1_counterexample :
    redisTransaction (.error (.error "boom")) (.ok (.num 1)) =
      (.error (.databaseError "Redis transaction failed: boom"), [.multi]) ∧
    resultIsTransactionError
      (redisTransaction (.error (.error "boom")) (.ok (.num 1))).1 = false ∧
    (.discard ∉ (redisTransaction (.error (.error "boom")) (.ok (.num 1))).2) ∧
    resultIsTransactionError
      (mongoTransaction (.error (.error "boom")) (.ok ()) (.ok ())).1 = false := by
  refine ⟨rfl, rfl, by decide, rfl⟩

/-- C10: at the Redis adapter's public interface, after `create(key, v)` a
`get(key)` returns the JSON round-trip of `v` when `v` is not a string
(`JSON.parse` of `JSON.stringify(v)`, with the adapter's raw-string
fallback when parsing fails); when `v` is a string it returns
`JSON.parse(v)` when `v` parses as JSON and the original string otherwise;
and `get` of an absent key returns `null`. -/
theorem c10_redis_value_roundtrip (store : List (String × String))
    (k : String) (v : JsVal) :
    (store.lookup k = none → redisGet store k = .null) ∧
    (∀ s, v = .str s →
       ∀ store2, redisCreate store k v = some store2 →
         redisGet store2 k =
           (match jsonParse s with
            | some w => w
            | none => .str s)) ∧
    (jsTypeof v ≠ "string" →
       ∀ s, jsonStringify v = some s →
         ∀ store2, redisCreate store k v = some store2 →
           redisGet store2 k =
             (match jsonParse s with
              | some w => w
              | none => .str s)) := by
  refine ⟨?_, ?_, ?_⟩
  · intro h
    simp [redisGet, h, redisDeserialize]
  · intro s hv store2 hc
    subst hv
    simp [redisCreate, redisSerialize] at hc
    subst hc
    simp [redisGet, setEntry_lookup, redisDeserialize]
  · intro hts s hs store2 hc
    have hser : redisSerialize v = some s := by
      cases v <;> simp_all [redisSerialize, jsTypeof]
    rw [redisCreate, hser] at hc
    simp at hc
    subst hc
    simp [redisGet, setEntry_lookup, redisDeserialize]

/-- Witness for C10: the stored string "42" comes back as the number 42, a
non-string object round-trips through JSON to itself, a non-JSON string
comes back verbatim, and an absent key reads as null. -/
theorem c10_redis_value_roundtrip_witness :
    redisGet [] "absent" = .null ∧
    redisGet (setEntry [] "session" "42") "session" = .num 42 ∧
    redisGet (setEntry [] "k"
        (String.singleton lbraceChar ++ "\"a\":[1,\"x\"]" ++
          String.singleton rbraceChar)) "k" =
      .obj [("a", .arr [.num 1, .str "x"])] ∧
    redisGet (setEntry [] "t" "hello") "t" = .str "hello" :=
  ⟨(c10_redis_value_roundtrip [] "absent" .null).1 rfl,
   ((c10_redis_value_roundtrip [] "session" (.str "42")).2.1 "42" rfl
      (setEntry [] "session" "42") rfl).trans rfl,
   ((c10_redis_value_roundtrip [] "k"
       (.obj [("a", .arr [.num 1, .str "x"])])).2.2 (by decide)
      (String.singleton lbraceChar ++ "\"a\":[1,\"x\"]" ++
        String.singleton rbraceChar) rfl
      (setEntry [] "k"
        (String.singleton lbraceChar ++ "\"a\":[1,\"x\"]" ++
          String.singleton rbraceChar)) rfl).trans rfl,
   ((c10_redis_value_roundtrip [] "t" (.str "hello")).2.1 "hello" rfl
      (setEntry [] "t" "hello") rfl).trans rfl⟩

end UOrm
